import Mathlib

/-!
Verification of the result-processing pipeline of the financial-sentiment
client (`src/pages/Index.tsx`): response normalization (`analyzeHeadline`'s
article mapping), query state transitions, the view projection
(`filteredResults` / `sortedResults`) and the CSV exporter (`exportResults`).

The TypeScript code is embedded shallowly: JavaScript strings become `String`,
nullable values become `Option`, `Date` values become `Option Int` (where
`none` stands for an Invalid Date, i.e. a `NaN` time value), and the
non-deterministic per-call `new Date()` is threaded in as an explicit clock
indexed by article position.  The asynchronous `fetch` is modelled by an
explicit outcome value handed to the (otherwise pure) state transition.
-/

/-! ## JavaScript-boundary helpers -/

/-- JavaScript truthiness of an optional string: `undefined`/`null` and the
empty string are falsy. -/
def truthyStr : Option String → Bool
  | none => false
  | some s => !(s == "")

/-- The JavaScript idiom `v || d` on an optional string: yields `d` exactly
when `v` is absent or empty, otherwise the string itself. -/
def jsOr (v : Option String) (d : String) : String :=
  match v with
  | none => d
  | some s => if s == "" then d else s

/-- Whitespace as JavaScript's `String.prototype.trim` removes it (modelled on
the common whitespace characters). -/
def jsWhite (c : Char) : Bool :=
  c == ' ' || c == '\t' || c == '\n' || c == '\r'

/-- JavaScript `String.prototype.trim`: drop leading and trailing whitespace. -/
def jsTrim (s : String) : String :=
  String.mk (((s.data.dropWhile jsWhite).reverse.dropWhile jsWhite).reverse)

/-- A JavaScript value as the service's JSON may put in the `polarity` field:
absent (`undefined`), `null`, a number (modelled in thousandths, which is
exact for the three-decimal values the pipeline renders), a string, or a
boolean. -/
inductive JsValue where
  | undef : JsValue
  | null : JsValue
  | num : Int → JsValue
  | str : String → JsValue
  | bool : Bool → JsValue
deriving DecidableEq

/-- `x.toFixed(3)` for a number carried as thousandths: sign, integer part,
point, exactly three fractional digits. -/
def toFixed3 (n : Int) : String :=
  (if n < 0 then "-" else "") ++ toString (n.natAbs / 1000) ++ "." ++
    String.mk [Nat.digitChar (n.natAbs / 100 % 10),
               Nat.digitChar (n.natAbs / 10 % 10),
               Nat.digitChar (n.natAbs % 10)]

/-- JavaScript `String(v)` applied to `a.polarity ?? ""` as the code does for
a non-number polarity: `undefined` and `null` collapse to the empty string
via `?? ""`, a string renders as itself, a boolean as `true`/`false`. -/
def polarityFallbackStr : JsValue → String
  | .undef => ""
  | .null => ""
  | .num n => toFixed3 n
  | .str s => s
  | .bool b => if b then "true" else "false"

/-- Models the host environment's `new Date(string)` parser on the ISO
`YYYY-MM-DD` fragment: such strings parse to a definite instant, anything
else yields the invalid date (`none`), exactly as `new Date("garbage")`
yields an Invalid Date whose time value is `NaN`. -/
def jsDateParse (s : String) : Option Int :=
  match s.data with
  | [y1, y2, y3, y4, '-', m1, m2, '-', d1, d2] =>
    if y1.isDigit && y2.isDigit && y3.isDigit && y4.isDigit &&
       m1.isDigit && m2.isDigit && d1.isDigit && d2.isDigit then
      let y := (y1.toNat - 48) * 1000 + (y2.toNat - 48) * 100 +
               (y3.toNat - 48) * 10 + (y4.toNat - 48)
      let m := (m1.toNat - 48) * 10 + (m2.toNat - 48)
      let d := (d1.toNat - 48) * 10 + (d2.toNat - 48)
      if 1 ≤ m && m ≤ 12 && 1 ≤ d && d ≤ 31 then
        some (((Int.ofNat y * 12 + Int.ofNat m) * 31 + Int.ofNat d) * 86400000)
      else none
    else none
  | _ => none

/-! ## Data model -/

/-- One raw article of the service payload (`data.articles[i]`), untyped at
the boundary: every field the mapping reads may be absent. -/
structure RawArticle where
  title : String
  sentiment : Option String
  published : Option String
  polarity : JsValue
  explanation : Option String
  link : Option String
deriving DecidableEq

/-- The normalized `AnalysisResult` record of the source.  `sentiment` keeps
the runtime value (the TypeScript cast does not validate it), `timestamp` is
`none` for an Invalid Date. -/
structure AnalysisResult where
  headline : String
  sentiment : Option String
  timestamp : Option Int
  explanation : String
  link : Option String
deriving DecidableEq

/-- The adopted summary state: `{positive, negative, neutral}` counts. -/
structure SummaryCounts where
  positive : Int
  negative : Int
  neutral : Int
deriving DecidableEq

/-- The raw `data.summary` object: each field may be absent. -/
structure RawSummary where
  positive : Option Int
  negative : Option Int
  neutral : Option Int
deriving DecidableEq

/-- A parsed success body: `data.articles` and `data.summary` may be absent. -/
structure ResponseData where
  articles : Option (List RawArticle)
  summary : Option RawSummary
deriving DecidableEq

/-- How the awaited `fetch` resolves: a non-ok response carrying its body
text, a parsed success body, or a thrown error (network failure or a body
`res.json()` cannot parse). -/
inductive FetchOutcome where
  | httpError : String → FetchOutcome
  | success : ResponseData → FetchOutcome
  | transportError : FetchOutcome
deriving DecidableEq

/-- The sort selection (`sortBy`). -/
inductive SortKey where
  | date : SortKey
  | time : SortKey
  | sentiment : SortKey
deriving DecidableEq

/-- The filter selection (`filterBy`), as the UI sets it. -/
inductive FilterBy where
  | all : FilterBy
  | positive : FilterBy
  | negative : FilterBy
  | neutral : FilterBy
deriving DecidableEq

/-- The component's mutable state (`useState` variables of `Index`). -/
structure ClientState where
  headline : String
  results : List AnalysisResult
  sortBy : SortKey
  filterBy : FilterBy
  isLoading : Bool
  errorMsg : Option String
  summary : Option SummaryCounts
deriving DecidableEq

/-! ## Response normalization (the `articles.map` body) -/

/-- The body of `articles.map((a) => ...)` for one article, with `now` the
value of this article's own `new Date()` call. -/
def mapArticle (now : Int) (a : RawArticle) : AnalysisResult :=
  { headline := a.title
    sentiment := some (jsOr a.sentiment "neutral")
    timestamp := if truthyStr a.published then jsDateParse (a.published.getD "") else some now
    explanation := jsOr a.explanation ("Polarity score: " ++ polarityFallbackStr a.polarity)
    link := a.link }

/-- `articles.map` starting at index `i`: article `j` of the batch uses
`clock (i + offset)` for its own `new Date()` call. -/
def normalizeFrom (clock : Nat → Int) (i : Nat) : List RawArticle → List AnalysisResult
  | [] => []
  | a :: rest => mapArticle (clock i) a :: normalizeFrom clock (i + 1) rest

/-- The full mapping of the raw article list into `AnalysisResult` records,
each article evaluating its own `new Date()` (`clock` at its index). -/
def normalizeArticles (clock : Nat → Int) (articles : List RawArticle) : List AnalysisResult :=
  normalizeFrom clock 0 articles

/-! ## Query client (`analyzeHeadline`, `clearResults` and the triggers) -/

/-- The fixed message for a service-reported (non-ok) failure. -/
def backendErrorMsg : String := "Backend returned an error. Check the Flask console."

/-- The fixed message for a transport failure. -/
def unreachableMsg : String := "Could not reach the backend. Is python app.py running on port 5000?"

/-- `analyzeHeadline` as a state transition: given the outcome of the awaited
request, the state after the call, paired with whether a request was issued
at all (the empty-query guard returns before fetching).  The `finally` block
clears `isLoading` on every exit path. -/
def analyzeHeadline (clock : Nat → Int) (s : ClientState) (outcome : FetchOutcome) :
    ClientState × Bool :=
  let query := jsTrim s.headline
  if query == "" then (s, false)
  else
    let s1 := { s with isLoading := true, errorMsg := none }
    match outcome with
    | .httpError _ =>
        ({ s1 with errorMsg := some backendErrorMsg, isLoading := false }, true)
    | .transportError =>
        ({ s1 with errorMsg := some unreachableMsg, isLoading := false }, true)
    | .success data =>
        let mapped := normalizeArticles clock (data.articles.getD [])
        let sum := match data.summary with
          | some sm => some { positive := sm.positive.getD 0,
                              negative := sm.negative.getD 0,
                              neutral := sm.neutral.getD 0 : SummaryCounts }
          | none => none
        ({ s1 with results := mapped, summary := sum, isLoading := false }, true)

/-- `clearResults`: empty the canonical set and clear summary and error. -/
def clearResults (s : ClientState) : ClientState :=
  { s with results := [], summary := none, errorMsg := none }

/-- The submit button: `onClick={analyzeHeadline}` with `disabled={isLoading}`
— a disabled button fires no click, so while loading nothing happens. -/
def clickAnalyze (clock : Nat → Int) (s : ClientState) (outcome : FetchOutcome) :
    ClientState × Bool :=
  if s.isLoading then (s, false) else analyzeHeadline clock s outcome

/-- The input's `onKeyDown={(e) => e.key === "Enter" && analyzeHeadline()}`:
the only guard is on the key. -/
def handleKeyDown (clock : Nat → Int) (key : String) (s : ClientState)
    (outcome : FetchOutcome) : ClientState × Bool :=
  if key == "Enter" then analyzeHeadline clock s outcome else (s, false)

/-! ## View projection (`filteredResults` / `sortedResults`) -/

/-- The filter predicate: `filterBy === "all" || r.sentiment === filterBy`. -/
def matchesFilter (filterBy : FilterBy) (r : AnalysisResult) : Bool :=
  match filterBy with
  | .all => true
  | .positive => r.sentiment == some "positive"
  | .negative => r.sentiment == some "negative"
  | .neutral => r.sentiment == some "neutral"

/-- `results.filter((r) => filterBy === "all" || r.sentiment === filterBy)`. -/
def filteredResults (filterBy : FilterBy) (results : List AnalysisResult) :
    List AnalysisResult :=
  results.filter (matchesFilter filterBy)

/-- The sentiment rank `order[x.sentiment || "neutral"] || 0` of the
comparator: `positive` 3, `neutral` (or absent or empty) 2, `negative` 1, any
other runtime string 0 (an absent table entry is `undefined`, coerced to 0). -/
def sentimentRank (s : Option String) : Int :=
  match jsOr s "neutral" with
  | "positive" => 3
  | "neutral" => 2
  | "negative" => 1
  | _ => 0

/-- The comparator passed to `.sort((a, b) => ...)`.  For `date`/`time` it is
`b.timestamp.getTime() - a.timestamp.getTime()`; an Invalid Date's time value
is `NaN`, and a comparator result of `NaN` is treated as `+0` by the
ECMAScript `SortCompare` operation, hence the `0` in the mixed cases. -/
def resultCmp (sortBy : SortKey) (a b : AnalysisResult) : Int :=
  match sortBy with
  | .date | .time =>
    match a.timestamp, b.timestamp with
    | some x, some y => y - x
    | _, _ => 0
  | .sentiment => sentimentRank b.sentiment - sentimentRank a.sentiment

/-- Stable insertion of `x` (an earlier element) into the already sorted list
of later elements: `x` goes before the first element it does not strictly
follow, so ties keep input order. -/
def insertBy (c : α → α → Int) (x : α) : List α → List α
  | [] => [x]
  | y :: ys => if c x y ≤ 0 then x :: y :: ys else y :: insertBy c x ys

/-- The ECMAScript stable sort (`[...l].sort(c)`) as a stable insertion sort:
for a consistent comparator this is the one stable order the standard
mandates. -/
def jsSortBy (c : α → α → Int) (l : List α) : List α :=
  l.foldr (insertBy c) []

/-- `sortedResults`: the spread-copied filtered list, sorted. -/
def sortedResults (sortBy : SortKey) (filterBy : FilterBy)
    (results : List AnalysisResult) : List AnalysisResult :=
  jsSortBy (resultCmp sortBy) (filteredResults filterBy results)

/-! ## Exporter (`exportResults`) and a quote-aware CSV reader -/

/-- `.replace(/"/g, '""')` at the character level: every double quote is
doubled. -/
def escChars : List Char → List Char
  | [] => []
  | c :: cs => if c = '"' then '"' :: '"' :: escChars cs else c :: escChars cs

/-- The quoted-field rendering `"${s.replace(/"/g, '""')}"`. -/
def quoteCsv (s : String) : String :=
  "\"" ++ String.mk (escChars s.data) ++ "\""

/-- The header row of the export. -/
def csvHeader : List String :=
  ["Headline", "Sentiment", "Date", "Time", "Link", "Explanation"]

/-- One record's row: Headline and Explanation quoted with doubled internal
quotes, the other fields unquoted; absent sentiment/link render as `""` via
`|| ""`.  `fd`/`ft` stand for the locale renderings `toLocaleDateString` /
`toLocaleTimeString` of the host. -/
def csvRow (fd ft : Option Int → String) (r : AnalysisResult) : List String :=
  [quoteCsv r.headline, jsOr r.sentiment "", fd r.timestamp, ft r.timestamp,
   jsOr r.link "", quoteCsv r.explanation]

/-- The `[header, ...rows]` table the code builds. -/
def csvTable (fd ft : Option Int → String) (results : List AnalysisResult) :
    List (List String) :=
  csvHeader :: results.map (csvRow fd ft)

/-- JavaScript `Array.prototype.join(sep)`. -/
def joinSep (sep : String) : List String → String
  | [] => ""
  | [a] => a
  | a :: b :: rest => a ++ sep ++ joinSep sep (b :: rest)

/-- The CSV text: rows joined by `","`, lines joined by `"\n"`. -/
def csvText (fd ft : Option Int → String) (results : List AnalysisResult) : String :=
  joinSep "\n" ((csvTable fd ft results).map (joinSep ","))

/-- `exportResults`: no artifact for an empty canonical set, otherwise the
CSV text of the full canonical set. -/
def exportResults (fd ft : Option Int → String) (results : List AnalysisResult) :
    Option String :=
  if results.isEmpty then none else some (csvText fd ft results)

/-- State of the CSV reader: outside quotes, inside quotes, or just past a
quote character seen inside quotes (which either doubles or closes). -/
inductive CsvMode where
  | normal : CsvMode
  | quoted : CsvMode
  | qEnd : CsvMode
deriving DecidableEq

/-- A CSV reader that respects double-quote wrapping and doubled-quote
escaping, used to state the export round-trip: commas and newlines outside
quotes separate fields and rows, a doubled quote inside quotes is a literal
quote. -/
def csvParseAux : List Char → CsvMode → List Char → List String → List (List String)
  | [], _, cur, row => [row ++ [String.mk cur]]
  | c :: cs, .quoted, cur, row =>
    if c = '"' then csvParseAux cs .qEnd cur row
    else csvParseAux cs .quoted (cur ++ [c]) row
  | c :: cs, .qEnd, cur, row =>
    if c = '"' then csvParseAux cs .quoted (cur ++ [c]) row
    else if c = ',' then csvParseAux cs .normal [] (row ++ [String.mk cur])
    else if c = '\n' then (row ++ [String.mk cur]) :: csvParseAux cs .normal [] []
    else csvParseAux cs .normal (cur ++ [c]) row
  | c :: cs, .normal, cur, row =>
    if c = '"' then csvParseAux cs .quoted cur row
    else if c = ',' then csvParseAux cs .normal [] (row ++ [String.mk cur])
    else if c = '\n' then (row ++ [String.mk cur]) :: csvParseAux cs .normal [] []
    else csvParseAux cs .normal (cur ++ [c]) row

/-- Parse a CSV text into its rows of fields. -/
def csvParse (s : String) : List (List String) :=
  csvParseAux s.data .normal [] []

/-! ## Concrete sample builders for the closed instances -/

/-- A client state with the given query, canonical results, busy flag and
summary; sort and filter at their defaults, no error. -/
def mkState (headline : String) (results : List AnalysisResult) (busy : Bool)
    (sum : Option SummaryCounts) : ClientState :=
  { headline := headline, results := results, sortBy := SortKey.time,
    filterBy := FilterBy.all, isLoading := busy, errorMsg := none, summary := sum }

/-- A raw article with the given optional fields and a fixed title. -/
def mkArticle (sent pub : Option String) (pol : JsValue) (expl : Option String) :
    RawArticle :=
  { title := "t", sentiment := sent, published := pub, polarity := pol,
    explanation := expl, link := none }

/-- A normalized record with the given headline, sentiment, timestamp and
link. -/
def mkRecord (headline : String) (sent : Option String) (ts : Option Int)
    (link : Option String) : AnalysisResult :=
  { headline := headline, sentiment := sent, timestamp := ts,
    explanation := "e", link := link }

/-! ## Indexing the normalized batch -/

/-- Article `j` of a batch mapped from index `i` is mapped with its own clock
value `clock (i + j)`. -/
theorem normalizeFrom_getElem? (clock : Nat → Int) :
    ∀ (l : List RawArticle) (i j : Nat),
      (normalizeFrom clock i l)[j]? = (l[j]?).map (fun a => mapArticle (clock (i + j)) a) := by
  intro l
  induction l with
  | nil => intro i j; simp [normalizeFrom]
  | cons a rest ih =>
    intro i j
    cases j with
    | zero => simp [normalizeFrom]
    | succ j' =>
      simp only [normalizeFrom, List.getElem?_cons_succ]
      rw [ih (i + 1) j']
      have : i + 1 + j' = i + (j' + 1) := by omega
      rw [this]

/-- Record `j` of the normalized batch is the mapping of article `j` under
that article's own `new Date()` value. -/
theorem normalizeArticles_getElem? (clock : Nat → Int) (l : List RawArticle) (j : Nat) :
    (normalizeArticles clock l)[j]? = (l[j]?).map (fun a => mapArticle (clock j) a) := by
  have := normalizeFrom_getElem? clock l 0 j
  simpa [normalizeArticles] using this

/-! ## C1 — sentiment defaulting -/

/-- C1 (counterexample): an article whose sentiment is the unknown label
`"bullish"` (not one of the three known values) keeps that label verbatim
after normalization; it does not become `"neutral"` as the claim states. -/
theorem unknown_sentiment_kept_cex :
    (normalizeArticles (fun _ => 0)
        [{ title := "Fed hints at cuts", sentiment := some "bullish", published := none,
           polarity := JsValue.undef, explanation := some "e", link := none }]).map
        (fun r => r.sentiment) = [some "bullish"] ∧
      (some "bullish" : Option String) ≠ some "neutral" := by
  constructor
  · rfl
  · decide

/-- C1 (amended): normalization coerces the sentiment to `"neutral"` exactly
when the raw field is absent or the empty string (the falsy cases of
`a.sentiment || "neutral"`); any non-empty sentiment label — a misspelled or
unexpected one included — is kept verbatim in the resulting record. -/
theorem sentiment_default_amended (clock : Nat → Int) (articles : List RawArticle)
    (i : Nat) (a : RawArticle) (h : articles[i]? = some a) :
    (normalizeArticles clock articles)[i]? = some (mapArticle (clock i) a) ∧
    ((a.sentiment = none ∨ a.sentiment = some "") →
      (mapArticle (clock i) a).sentiment = some "neutral") ∧
    (∀ s, a.sentiment = some s → s ≠ "" → (mapArticle (clock i) a).sentiment = some s) := by
  refine ⟨?_, ?_, ?_⟩
  · rw [normalizeArticles_getElem?, h]; rfl
  · rintro (hs | hs) <;> simp [mapArticle, jsOr, hs]
  · intro s hs hne
    simp [mapArticle, jsOr, hs, hne]

/-- C1 (witness): the amended statement instantiated at a concrete
one-article batch whose article has no sentiment field. -/
theorem sentiment_default_witness :
    (normalizeArticles (fun _ => 5)
        [{ title := "t", sentiment := none, published := none,
           polarity := JsValue.undef, explanation := none, link := none }])[0]? =
      some (mapArticle 5
        { title := "t", sentiment := none, published := none,
          polarity := JsValue.undef, explanation := none, link := none }) ∧
    ((({ title := "t", sentiment := none, published := none,
         polarity := JsValue.undef, explanation := none,
         link := none } : RawArticle).sentiment = none ∨
      ({ title := "t", sentiment := none, published := none,
         polarity := JsValue.undef, explanation := none,
         link := none } : RawArticle).sentiment = some "") →
      (mapArticle 5
        { title := "t", sentiment := none, published := none,
          polarity := JsValue.undef, explanation := none,
          link := none }).sentiment = some "neutral") ∧
    (∀ s, ({ title := "t", sentiment := none, published := none,
             polarity := JsValue.undef, explanation := none,
             link := none } : RawArticle).sentiment = some s → s ≠ "" →
      (mapArticle 5
        { title := "t", sentiment := none, published := none,
          polarity := JsValue.undef, explanation := none,
          link := none }).sentiment = some s) :=
  sentiment_default_amended (fun _ => 5)
    [{ title := "t", sentiment := none, published := none,
       polarity := JsValue.undef, explanation := none, link := none }] 0
    { title := "t", sentiment := none, published := none,
      polarity := JsValue.undef, explanation := none, link := none } rfl

/-! ## C3 — timestamp defaulting -/

/-- C3 (counterexample): an article whose `published` field is present but
not parseable as an instant gets the invalid date (`none`), not the instant
of its own processing (`clock 0 = 100`) as the claim states. -/
theorem unparseable_published_cex :
    (normalizeArticles (fun i => 100 + (i : Int))
        [{ title := "t", sentiment := none, published := some "garbage",
           polarity := JsValue.undef, explanation := none, link := none }]).map
        (fun r => r.timestamp) = [none] ∧
      (none : Option Int) ≠ some 100 := by
  constructor
  · rfl
  · decide

/-- C3 (amended): a record's timestamp is the instant of its own processing
(`clock i`, evaluated per article, so two defaulted articles of one batch may
get different values) exactly when the `published` field is absent or empty;
a present non-empty `published` is handed to the date parser, whose result —
the invalid date when the string is unparseable — becomes the timestamp. -/
theorem timestamp_default_amended (clock : Nat → Int) (articles : List RawArticle)
    (i : Nat) (a : RawArticle) (h : articles[i]? = some a) :
    (normalizeArticles clock articles)[i]? = some (mapArticle (clock i) a) ∧
    ((a.published = none ∨ a.published = some "") →
      (mapArticle (clock i) a).timestamp = some (clock i)) ∧
    (∀ p, a.published = some p → p ≠ "" →
      (mapArticle (clock i) a).timestamp = jsDateParse p) := by
  refine ⟨?_, ?_, ?_⟩
  · rw [normalizeArticles_getElem?, h]; rfl
  · rintro (hp | hp) <;> simp [mapArticle, truthyStr, hp]
  · intro p hp hne
    simp [mapArticle, truthyStr, hp, hne]

/-- C3 (witness): the amended statement instantiated at a two-article batch
with no published fields and an injective clock; the theorem applied at index
0, alongside the evaluation showing the two records get the distinct instants
`7` and `8`. -/
theorem timestamp_default_witness :
    ((normalizeArticles (fun i => 7 + (i : Int))
        [{ title := "a", sentiment := none, published := none,
           polarity := JsValue.undef, explanation := none, link := none },
         { title := "b", sentiment := none, published := none,
           polarity := JsValue.undef, explanation := none, link := none }]).map
        (fun r => r.timestamp) = [some 7, some 8]) ∧
    (((({ title := "a", sentiment := none, published := none,
          polarity := JsValue.undef, explanation := none,
          link := none } : RawArticle).published = none ∨
       ({ title := "a", sentiment := none, published := none,
          polarity := JsValue.undef, explanation := none,
          link := none } : RawArticle).published = some "") →
      (mapArticle 7
        { title := "a", sentiment := none, published := none,
          polarity := JsValue.undef, explanation := none,
          link := none }).timestamp = some 7)) := by
  constructor
  · rfl
  · have h := timestamp_default_amended (fun i => 7 + (i : Int))
      [{ title := "a", sentiment := none, published := none,
         polarity := JsValue.undef, explanation := none, link := none },
       { title := "b", sentiment := none, published := none,
         polarity := JsValue.undef, explanation := none, link := none }] 0
      { title := "a", sentiment := none, published := none,
        polarity := JsValue.undef, explanation := none, link := none } rfl
    simpa using h.2.1

/-! ## C4 — explanation synthesis -/

/-- C4 (counterexample): with no service explanation and a polarity that is
the (non-numeric) string `"abc"`, the synthesized explanation is
`"Polarity score: abc"` — the non-numeric polarity is stringified, not
rendered as the empty string the claim demands. -/
theorem nonnumeric_polarity_cex :
    (normalizeArticles (fun _ => 0)
        [{ title := "t", sentiment := none, published := none,
           polarity := JsValue.str "abc", explanation := none, link := none }]).map
        (fun r => r.explanation) = ["Polarity score: abc"] ∧
      ("Polarity score: abc" : String) ≠ "Polarity score: " := by
  constructor
  · rfl
  · decide

/-- C4 (amended): a non-empty service explanation is used verbatim; with an
absent or empty explanation the record gets `"Polarity score: "` followed by
the polarity rendered by `toFixed(3)` (exactly three decimal places) when it
is a number and by the empty string when it is absent or `null` — but a
present non-numeric polarity (a string or boolean) is stringified via
`String(...)`, so it can yield a non-empty rendering. -/
theorem explanation_synth_amended (clock : Nat → Int) (articles : List RawArticle)
    (i : Nat) (a : RawArticle) (h : articles[i]? = some a) :
    (normalizeArticles clock articles)[i]? = some (mapArticle (clock i) a) ∧
    (∀ e, a.explanation = some e → e ≠ "" → (mapArticle (clock i) a).explanation = e) ∧
    ((a.explanation = none ∨ a.explanation = some "") →
      (mapArticle (clock i) a).explanation =
        "Polarity score: " ++ polarityFallbackStr a.polarity) ∧
    polarityFallbackStr JsValue.undef = "" ∧
    polarityFallbackStr JsValue.null = "" ∧
    (∀ n : Int, polarityFallbackStr (JsValue.num n) = toFixed3 n) ∧
    (∀ s : String, polarityFallbackStr (JsValue.str s) = s) ∧
    (∀ n : Int, ∃ intPart fracPart : String,
      toFixed3 n = intPart ++ "." ++ fracPart ∧ fracPart.length = 3) := by
  refine ⟨?_, ?_, ?_, rfl, rfl, fun _ => rfl, fun _ => rfl, ?_⟩
  · rw [normalizeArticles_getElem?, h]; rfl
  · intro e he hne
    simp [mapArticle, jsOr, he, hne]
  · rintro (he | he) <;> simp [mapArticle, jsOr, he]
  · intro n
    refine ⟨(if n < 0 then "-" else "") ++ toString (n.natAbs / 1000),
      String.mk [Nat.digitChar (n.natAbs / 100 % 10), Nat.digitChar (n.natAbs / 10 % 10),
                 Nat.digitChar (n.natAbs % 10)], ?_, rfl⟩
    simp [toFixed3, String.append_assoc]

/-- C4 (witness): the amended statement instantiated at the spec's scenario —
one article with negative sentiment and polarity `-0.812` and no provided
explanation — together with the evaluation showing the synthesized
explanation `"Polarity score: -0.812"`. -/
theorem explanation_synth_witness :
    ((normalizeArticles (fun _ => 0)
        [{ title := "Tesla stock crashes 15%", sentiment := some "negative",
           published := none, polarity := JsValue.num (-812),
           explanation := none, link := none }]).map
        (fun r => r.explanation) = ["Polarity score: -0.812"]) ∧
    ((({ title := "Tesla stock crashes 15%", sentiment := some "negative",
         published := none, polarity := JsValue.num (-812),
         explanation := none, link := none } : RawArticle).explanation = none ∨
      ({ title := "Tesla stock crashes 15%", sentiment := some "negative",
         published := none, polarity := JsValue.num (-812),
         explanation := none, link := none } : RawArticle).explanation = some "") →
      (mapArticle 0
        { title := "Tesla stock crashes 15%", sentiment := some "negative",
          published := none, polarity := JsValue.num (-812),
          explanation := none, link := none }).explanation =
        "Polarity score: " ++ polarityFallbackStr (JsValue.num (-812))) := by
  constructor
  · rfl
  · have h := explanation_synth_amended (fun _ => 0)
      [{ title := "Tesla stock crashes 15%", sentiment := some "negative",
         published := none, polarity := JsValue.num (-812),
         explanation := none, link := none }] 0
      { title := "Tesla stock crashes 15%", sentiment := some "negative",
        published := none, polarity := JsValue.num (-812),
        explanation := none, link := none } rfl
    exact h.2.2.1

/-! ## C2 — summary on failure -/

/-- C2 (counterexample): a failed call (service-reported failure) on a state
whose summary is present leaves that summary present — it is not cleared as
the claim states. -/
theorem summary_kept_on_failure_cex :
    ((analyzeHeadline (fun _ => 0)
        (mkState "x" [] false (some { positive := 1, negative := 2, neutral := 3 }))
        (FetchOutcome.httpError "boom")).1.summary =
      some { positive := 1, negative := 2, neutral := 3 }) ∧
    (some ({ positive := 1, negative := 2, neutral := 3 } : SummaryCounts) ≠
      (none : Option SummaryCounts)) := by
  constructor
  · rfl
  · decide

/-- C2 (amended): both failure paths of a real (non-empty-query) analyze call
leave the summary exactly as it was; the summary is cleared by the explicit
clear action and by a successful response that carries no summary, not by a
failed query. -/
theorem summary_on_failure_amended (clock : Nat → Int) (s : ClientState) (t : String)
    (h : jsTrim s.headline ≠ "") :
    (analyzeHeadline clock s (FetchOutcome.httpError t)).1.summary = s.summary ∧
    (analyzeHeadline clock s FetchOutcome.transportError).1.summary = s.summary ∧
    (clearResults s).summary = none ∧
    (∀ d : ResponseData, d.summary = none →
      (analyzeHeadline clock s (FetchOutcome.success d)).1.summary = none) := by
  refine ⟨?_, ?_, rfl, ?_⟩
  · simp [analyzeHeadline, h]
  · simp [analyzeHeadline, h]
  · intro d hd
    simp [analyzeHeadline, h, hd]

/-- C2 (witness): the amended statement instantiated at a concrete state with
a present summary and the query `"x"`. -/
theorem summary_on_failure_witness :
    ((analyzeHeadline (fun _ => 0)
        (mkState "x" [] false (some { positive := 1, negative := 0, neutral := 0 }))
        (FetchOutcome.httpError "oops")).1.summary =
      (mkState "x" [] false (some { positive := 1, negative := 0, neutral := 0 })).summary) ∧
    ((analyzeHeadline (fun _ => 0)
        (mkState "x" [] false (some { positive := 1, negative := 0, neutral := 0 }))
        FetchOutcome.transportError).1.summary =
      (mkState "x" [] false (some { positive := 1, negative := 0, neutral := 0 })).summary) ∧
    ((clearResults
        (mkState "x" [] false (some { positive := 1, negative := 0, neutral := 0 }))).summary =
      none) ∧
    (∀ d : ResponseData, d.summary = none →
      (analyzeHeadline (fun _ => 0)
        (mkState "x" [] false (some { positive := 1, negative := 0, neutral := 0 }))
        (FetchOutcome.success d)).1.summary = none) :=
  summary_on_failure_amended (fun _ => 0)
    (mkState "x" [] false (some { positive := 1, negative := 0, neutral := 0 }))
    "oops" (by decide)

/-! ## C5 — failure paths preserve results, two fixed messages -/

/-- C5: on the service-reported failure path the canonical results are left
unchanged and the error state gets the fixed backend-error message; on the
transport failure path the results are likewise unchanged and the error
state gets the distinct fixed service-unreachable message. -/
theorem failure_paths_preserve_results (clock : Nat → Int) (s : ClientState) (t : String)
    (h : jsTrim s.headline ≠ "") :
    (analyzeHeadline clock s (FetchOutcome.httpError t)).1.results = s.results ∧
    (analyzeHeadline clock s (FetchOutcome.httpError t)).1.errorMsg = some backendErrorMsg ∧
    (analyzeHeadline clock s FetchOutcome.transportError).1.results = s.results ∧
    (analyzeHeadline clock s FetchOutcome.transportError).1.errorMsg = some unreachableMsg ∧
    backendErrorMsg ≠ unreachableMsg := by
  refine ⟨?_, ?_, ?_, ?_, by decide⟩ <;> simp [analyzeHeadline, h]

/-- C5 (witness): the statement instantiated at a concrete state holding one
prior record and the query `"Tesla"`. -/
theorem failure_paths_preserve_results_witness :
    ((analyzeHeadline (fun _ => 0)
        (mkState "Tesla" [mkRecord "old" (some "neutral") (some 1) none] false none)
        (FetchOutcome.httpError "500")).1.results =
      (mkState "Tesla" [mkRecord "old" (some "neutral") (some 1) none] false none).results) ∧
    ((analyzeHeadline (fun _ => 0)
        (mkState "Tesla" [mkRecord "old" (some "neutral") (some 1) none] false none)
        (FetchOutcome.httpError "500")).1.errorMsg = some backendErrorMsg) ∧
    ((analyzeHeadline (fun _ => 0)
        (mkState "Tesla" [mkRecord "old" (some "neutral") (some 1) none] false none)
        FetchOutcome.transportError).1.results =
      (mkState "Tesla" [mkRecord "old" (some "neutral") (some 1) none] false none).results) ∧
    ((analyzeHeadline (fun _ => 0)
        (mkState "Tesla" [mkRecord "old" (some "neutral") (some 1) none] false none)
        FetchOutcome.transportError).1.errorMsg = some unreachableMsg) ∧
    backendErrorMsg ≠ unreachableMsg :=
  failure_paths_preserve_results (fun _ => 0)
    (mkState "Tesla" [mkRecord "old" (some "neutral") (some 1) none] false none)
    "500" (by decide)

/-! ## C6 — triggering while busy -/

/-- C6 (counterexample): with the busy flag set and a non-empty query,
pressing Enter issues a request (the trigger is guarded only by the key, not
by the busy flag) and writes state — the attempt is not inert. -/
theorem busy_enter_not_inert_cex :
    ((handleKeyDown (fun _ => 0) "Enter"
        (mkState "Tesla stock crashes 15%" [] true none)
        FetchOutcome.transportError).2 = true) ∧
    ((handleKeyDown (fun _ => 0) "Enter"
        (mkState "Tesla stock crashes 15%" [] true none)
        FetchOutcome.transportError).1.errorMsg = some unreachableMsg) := by
  constructor
  · rfl
  · rfl

/-- C6 (amended): while a query is in flight the submit-button path is inert
(the button is disabled, so no request is issued and the state is unchanged),
and a non-Enter key is inert; but the Enter-key path is not guarded by the
busy flag, so with a non-empty query it issues a second request even while
busy. -/
theorem busy_triggers_amended (clock : Nat → Int) (s : ClientState) (o : FetchOutcome)
    (key : String) (h : s.isLoading = true) :
    clickAnalyze clock s o = (s, false) ∧
    (key ≠ "Enter" → handleKeyDown clock key s o = (s, false)) ∧
    (jsTrim s.headline ≠ "" → (handleKeyDown clock "Enter" s o).2 = true) := by
  refine ⟨?_, ?_, ?_⟩
  · simp [clickAnalyze, h]
  · intro hk
    simp [handleKeyDown, hk]
  · intro hq
    cases o <;> simp [handleKeyDown, analyzeHeadline, hq]

/-- C6 (witness): the amended statement instantiated at a busy state with the
query `"Tesla"`. -/
theorem busy_triggers_witness :
    (clickAnalyze (fun _ => 0) (mkState "Tesla" [] true none) FetchOutcome.transportError =
      (mkState "Tesla" [] true none, false)) ∧
    (("a" : String) ≠ "Enter" →
      handleKeyDown (fun _ => 0) "a" (mkState "Tesla" [] true none)
        FetchOutcome.transportError = (mkState "Tesla" [] true none, false)) ∧
    (jsTrim (mkState "Tesla" [] true none).headline ≠ "" →
      (handleKeyDown (fun _ => 0) "Enter" (mkState "Tesla" [] true none)
        FetchOutcome.transportError).2 = true) :=
  busy_triggers_amended (fun _ => 0) (mkState "Tesla" [] true none)
    FetchOutcome.transportError "a" rfl

/-! ## Sorting infrastructure -/

/-- Both comparators of the source are total in the weak sense the sort
needs: of any two elements, at least one does not strictly follow the
other. -/
theorem resultCmp_total (k : SortKey) (a b : AnalysisResult) :
    resultCmp k a b ≤ 0 ∨ resultCmp k b a ≤ 0 := by
  cases k <;> simp only [resultCmp]
  · rcases a.timestamp with _ | x <;> rcases b.timestamp with _ | y
    all_goals simp_all
    all_goals omega
  · rcases a.timestamp with _ | x <;> rcases b.timestamp with _ | y
    all_goals simp_all
    all_goals omega
  · omega

/-- Membership in an insertion. -/
theorem mem_insertBy (c : α → α → Int) (x a : α) :
    ∀ l : List α, a ∈ insertBy c x l ↔ a = x ∨ a ∈ l := by
  intro l
  induction l with
  | nil => simp [insertBy]
  | cons y ys ih =>
    by_cases h : c x y ≤ 0
    · simp [insertBy, h]
    · simp only [insertBy, if_neg h, List.mem_cons, ih]
      tauto

/-- Membership in the sorted list. -/
theorem mem_jsSortBy (c : α → α → Int) (a : α) :
    ∀ l : List α, a ∈ jsSortBy c l ↔ a ∈ l := by
  intro l
  induction l with
  | nil => simp [jsSortBy]
  | cons y ys ih =>
    show a ∈ insertBy c y (jsSortBy c ys) ↔ _
    rw [mem_insertBy, ih]
    simp

/-- Inserting into a locally sorted list keeps it locally sorted, when the
comparator is total. -/
theorem insertBy_chain' (c : α → α → Int)
    (tot : ∀ x y : α, c x y ≤ 0 ∨ c y x ≤ 0) (x : α) :
    ∀ l : List α, l.Chain' (fun a b => c a b ≤ 0) →
      (insertBy c x l).Chain' (fun a b => c a b ≤ 0) := by
  intro l
  induction l with
  | nil => intro _; simp [insertBy]
  | cons y ys ih =>
    intro h
    rw [List.chain'_cons'] at h
    by_cases hxy : c x y ≤ 0
    · rw [insertBy, if_pos hxy, List.chain'_cons]
      exact ⟨hxy, List.chain'_cons'.mpr h⟩
    · rw [insertBy, if_neg hxy]
      have hyx : c y x ≤ 0 := (tot x y).resolve_left hxy
      rw [List.chain'_cons']
      refine ⟨?_, ih h.2⟩
      intro z hz
      cases ys with
      | nil =>
        simp only [insertBy, List.head?_cons, Option.mem_def, Option.some.injEq] at hz
        exact hz ▸ hyx
      | cons w ws =>
        rw [insertBy] at hz
        by_cases hxw : c x w ≤ 0
        · rw [if_pos hxw] at hz
          simp only [List.head?_cons, Option.mem_def, Option.some.injEq] at hz
          exact hz ▸ hyx
        · rw [if_neg hxw] at hz
          simp only [List.head?_cons, Option.mem_def, Option.some.injEq] at hz
          exact hz ▸ h.1 w (by simp)

/-- The sorted list is locally sorted, when the comparator is total. -/
theorem jsSortBy_chain' (c : α → α → Int)
    (tot : ∀ x y : α, c x y ≤ 0 ∨ c y x ≤ 0) :
    ∀ l : List α, (jsSortBy c l).Chain' (fun a b => c a b ≤ 0) := by
  intro l
  induction l with
  | nil => simp [jsSortBy]
  | cons y ys ih => exact insertBy_chain' c tot y _ ih

/-- A locally sorted list is a fixed point of the sort. -/
theorem jsSortBy_eq_of_chain' (c : α → α → Int) :
    ∀ l : List α, l.Chain' (fun a b => c a b ≤ 0) → jsSortBy c l = l := by
  intro l
  induction l with
  | nil => intro _; rfl
  | cons y ys ih =>
    intro h
    rw [List.chain'_cons'] at h
    show insertBy c y (jsSortBy c ys) = y :: ys
    rw [ih h.2]
    cases ys with
    | nil => rfl
    | cons w ws =>
      have : c y w ≤ 0 := h.1 w (by simp)
      rw [insertBy, if_pos this]

/-- Sorting twice with either comparator is sorting once. -/
theorem jsSortBy_idem (c : α → α → Int)
    (tot : ∀ x y : α, c x y ≤ 0 ∨ c y x ≤ 0) (l : List α) :
    jsSortBy c (jsSortBy c l) = jsSortBy c l :=
  jsSortBy_eq_of_chain' c _ (jsSortBy_chain' c tot l)

/-! ## C7 — idempotence of the view projection -/

/-- C7: the view projection (filter, then stable sort) is idempotent: for
every record sequence, every filter and every sort key, projecting an
already-projected sequence changes nothing. -/
theorem project_idempotent (results : List AnalysisResult) (f : FilterBy) (s : SortKey) :
    sortedResults s f (sortedResults s f results) = sortedResults s f results := by
  unfold sortedResults filteredResults
  have hfix : (jsSortBy (resultCmp s) (results.filter (matchesFilter f))).filter
      (matchesFilter f) = jsSortBy (resultCmp s) (results.filter (matchesFilter f)) := by
    apply List.filter_eq_self.mpr
    intro a ha
    rw [mem_jsSortBy] at ha
    exact List.of_mem_filter ha
  rw [hfix]
  exact jsSortBy_idem _ (resultCmp_total s) _

/-! ## C8 — the sentiment sort order and its stability -/

/-- The `all` filter passes every record. -/
theorem filteredResults_all (l : List AnalysisResult) :
    filteredResults FilterBy.all l = l := by
  simp [filteredResults, matchesFilter]

/-- Inserting with the sentiment comparator preserves each rank class's
content and order: the filter of the insertion by any rank value equals the
filter of simply prepending the element. -/
theorem insertBy_sentiment_filter (k : Int) (x : AnalysisResult) :
    ∀ l : List AnalysisResult,
      (insertBy (resultCmp SortKey.sentiment) x l).filter
          (fun r => sentimentRank r.sentiment == k) =
        (x :: l).filter (fun r => sentimentRank r.sentiment == k) := by
  intro l
  induction l with
  | nil => rfl
  | cons y ys ih =>
    by_cases h : resultCmp SortKey.sentiment x y ≤ 0
    · rw [insertBy, if_pos h]
    · rw [insertBy, if_neg h]
      have hgt : sentimentRank x.sentiment < sentimentRank y.sentiment := by
        simp only [resultCmp] at h
        omega
      by_cases hx : sentimentRank x.sentiment = k <;>
        by_cases hy : sentimentRank y.sentiment = k
      · omega
      · simp [List.filter_cons, hx, hy, ih]
      · simp [List.filter_cons, hx, hy, ih]
      · simp [List.filter_cons, hx, hy, ih]

/-- Stability of the sentiment sort, rank class by rank class: sorting does
not reorder records of equal rank. -/
theorem jsSortBy_sentiment_filter (k : Int) :
    ∀ l : List AnalysisResult,
      (jsSortBy (resultCmp SortKey.sentiment) l).filter
          (fun r => sentimentRank r.sentiment == k) =
        l.filter (fun r => sentimentRank r.sentiment == k) := by
  intro l
  induction l with
  | nil => rfl
  | cons y ys ih =>
    show (insertBy (resultCmp SortKey.sentiment) y
        (jsSortBy (resultCmp SortKey.sentiment) ys)).filter _ = _
    rw [insertBy_sentiment_filter]
    simp only [List.filter_cons, ih]

/-- C8: sorting by sentiment yields a sequence ordered by strictly descending
rank `positive (3) > neutral (2) > negative (1)` with an absent sentiment
ranked as neutral — so no negative or defaulted-neutral record precedes a
positive one — the records themselves are unaltered (same membership), and
ties (equal ranks) keep their relative input order. -/
theorem sentiment_sort_order (results : List AnalysisResult) :
    (sortedResults SortKey.sentiment FilterBy.all results).Pairwise
        (fun a b => sentimentRank b.sentiment ≤ sentimentRank a.sentiment) ∧
    (sortedResults SortKey.sentiment FilterBy.all results).Pairwise
        (fun a b => (a.sentiment = some "negative" ∨ a.sentiment = none) →
          b.sentiment ≠ some "positive") ∧
    sentimentRank (some "positive") = 3 ∧
    sentimentRank (some "neutral") = 2 ∧
    sentimentRank (some "negative") = 1 ∧
    sentimentRank none = sentimentRank (some "neutral") ∧
    (∀ r : AnalysisResult,
      r ∈ sortedResults SortKey.sentiment FilterBy.all results ↔ r ∈ results) ∧
    (∀ k : Int,
      (sortedResults SortKey.sentiment FilterBy.all results).filter
          (fun r => sentimentRank r.sentiment == k) =
        results.filter (fun r => sentimentRank r.sentiment == k)) := by
  have hproj : sortedResults SortKey.sentiment FilterBy.all results =
      jsSortBy (resultCmp SortKey.sentiment) results := by
    rw [sortedResults, filteredResults_all]
  have hchain := jsSortBy_chain' (resultCmp SortKey.sentiment)
    (resultCmp_total SortKey.sentiment) results
  have hchain2 : (jsSortBy (resultCmp SortKey.sentiment) results).Chain'
      (fun a b => sentimentRank b.sentiment ≤ sentimentRank a.sentiment) := by
    refine hchain.imp ?_
    intro a b hab
    simp only [resultCmp] at hab
    omega
  haveI : IsTrans AnalysisResult
      (fun a b => sentimentRank b.sentiment ≤ sentimentRank a.sentiment) :=
    ⟨fun _ _ _ h1 h2 => le_trans h2 h1⟩
  have hpair := List.chain'_iff_pairwise.mp hchain2
  refine ⟨hproj ▸ hpair, ?_, rfl, rfl, rfl, rfl, ?_, ?_⟩
  · refine hproj ▸ hpair.imp ?_
    intro a b hle ha hb
    rcases ha with ha | ha <;> rw [hb] at hle <;> rw [ha] at hle <;>
      simp [sentimentRank, jsOr] at hle
  · intro r
    rw [hproj, mem_jsSortBy]
  · intro k
    rw [hproj, jsSortBy_sentiment_filter]

/-! ## CSV reading lemmas -/

/-- Doubling the quote in an escaped prefix. -/
theorem escChars_quote (t : List Char) : escChars ('"' :: t) = '"' :: '"' :: escChars t := by
  simp [escChars]

/-- Escaping leaves a non-quote character alone. -/
theorem escChars_other (c : Char) (t : List Char) (h : ¬c = '"') :
    escChars (c :: t) = c :: escChars t := by
  simp [escChars, h]

/-- Joining a two-or-more element list starts with the first element and the
separator. -/
theorem joinSep_cons₂ (sep x y : String) (l : List String) :
    joinSep sep (x :: y :: l) = x ++ sep ++ joinSep sep (y :: l) := rfl

/-- A joined non-empty list is its first element followed by some suffix. -/
theorem joinSep_cons_decomp (sep x : String) (l : List String) :
    ∃ t : String, joinSep sep (x :: l) = x ++ t := by
  cases l with
  | nil =>
    refine ⟨"", ?_⟩
    rw [String.append_empty]
    rfl
  | cons y ys =>
    exact ⟨sep ++ joinSep sep (y :: ys), by rw [joinSep_cons₂, String.append_assoc]⟩

/-- A record's joined row starts with its quoted headline and a comma. -/
theorem rowLine_decomp (fd ft : Option Int → String) (r : AnalysisResult) :
    joinSep "," (csvRow fd ft r) =
      quoteCsv r.headline ++ "," ++
        joinSep "," [jsOr r.sentiment "", fd r.timestamp, ft r.timestamp,
          jsOr r.link "", quoteCsv r.explanation] := rfl

/-- Reading the concrete header line consumes it into the header fields. -/
theorem csvParseAux_header (cs : List Char) :
    csvParseAux ("Headline,Sentiment,Date,Time,Link,Explanation".data ++ '\n' :: cs)
      .normal [] [] = csvHeader :: csvParseAux cs .normal [] [] := rfl

/-- Reading an escaped text inside quotes, followed by the closing quote and
a comma, appends the unescaped text as one complete field. -/
theorem csvParseAux_esc :
    ∀ (h : List Char) (cs cur : List Char) (row : List String),
      csvParseAux (escChars h ++ '"' :: ',' :: cs) .quoted cur row =
      csvParseAux cs .normal [] (row ++ [String.mk (cur ++ h)]) := by
  intro h
  induction h with
  | nil =>
    intro cs cur row
    rw [List.append_nil]
    rfl
  | cons c t ih =>
    intro cs cur row
    by_cases hc : c = '"'
    · subst hc
      rw [escChars_quote]
      show csvParseAux (escChars t ++ '"' :: ',' :: cs) .quoted (cur ++ ['"']) row = _
      rw [ih, List.append_assoc]
      rfl
    · rw [escChars_other c t hc, List.cons_append]
      simp only [csvParseAux]
      rw [if_neg hc, ih, List.append_assoc]
      rfl

/-- Whatever follows, the first row the reader still has open keeps its first
already-completed field first. -/
theorem csvParseAux_first_field :
    ∀ (cs : List Char) (mode : CsvMode) (cur : List Char) (x : String) (pre : List String),
      ∃ tail more, csvParseAux cs mode cur (x :: pre) = (x :: tail) :: more := by
  intro cs
  induction cs with
  | nil =>
    intro mode cur x pre
    exact ⟨pre ++ [String.mk cur], [], by simp [csvParseAux]⟩
  | cons c cs ih =>
    intro mode cur x pre
    cases mode with
    | quoted =>
      by_cases hc : c = '"'
      · subst hc
        show ∃ tail more, csvParseAux cs .qEnd cur (x :: pre) = (x :: tail) :: more
        exact ih .qEnd cur x pre
      · simp only [csvParseAux, if_neg hc]
        exact ih .quoted (cur ++ [c]) x pre
    | qEnd =>
      by_cases hc : c = '"'
      · subst hc
        show ∃ tail more, csvParseAux cs .quoted (cur ++ ['"']) (x :: pre) = (x :: tail) :: more
        exact ih .quoted (cur ++ ['"']) x pre
      · by_cases hcomma : c = ','
        · subst hcomma
          simp only [csvParseAux, if_neg hc, reduceIte, List.cons_append]
          exact ih .normal [] x (pre ++ [String.mk cur])
        · by_cases hnl : c = '\n'
          · subst hnl
            simp only [csvParseAux, if_neg hc, if_neg hcomma, reduceIte, List.cons_append]
            exact ⟨pre ++ [String.mk cur], csvParseAux cs .normal [] [], rfl⟩
          · simp only [csvParseAux, if_neg hc, if_neg hcomma, if_neg hnl]
            exact ih .normal (cur ++ [c]) x pre
    | normal =>
      by_cases hc : c = '"'
      · subst hc
        show ∃ tail more, csvParseAux cs .quoted cur (x :: pre) = (x :: tail) :: more
        exact ih .quoted cur x pre
      · by_cases hcomma : c = ','
        · subst hcomma
          simp only [csvParseAux, if_neg hc, reduceIte, List.cons_append]
          exact ih .normal [] x (pre ++ [String.mk cur])
        · by_cases hnl : c = '\n'
          · subst hnl
            simp only [csvParseAux, if_neg hc, if_neg hcomma, reduceIte, List.cons_append]
            exact ⟨pre ++ [String.mk cur], csvParseAux cs .normal [] [], rfl⟩
          · simp only [csvParseAux, if_neg hc, if_neg hcomma, if_neg hnl]
            exact ih .normal (cur ++ [c]) x pre

/-! ## C9 — export/re-parse round-trip of the headline -/

/-- C9: for a record whose headline contains embedded double quotes, the
exported CSV — Headline and Explanation wrapped in double quotes with
internal quotes doubled, all other fields unquoted — re-parsed with the
quote-aware reader yields the original headline, exactly, as the first field
of the first data row, whatever records follow. -/
theorem export_headline_roundtrip (fd ft : Option Int → String) (r : AnalysisResult)
    (rest : List AnalysisResult) (_hq : '"' ∈ r.headline.data) :
    (∃ tail more, csvParse (csvText fd ft (r :: rest)) =
      csvHeader :: (r.headline :: tail) :: more) ∧
    csvRow fd ft r = [quoteCsv r.headline, jsOr r.sentiment "", fd r.timestamp,
      ft r.timestamp, jsOr r.link "", quoteCsv r.explanation] := by
  refine ⟨?_, rfl⟩
  obtain ⟨t, ht⟩ := joinSep_cons_decomp "\n" (joinSep "," (csvRow fd ft r))
    ((rest.map (csvRow fd ft)).map (joinSep ","))
  have htext : csvText fd ft (r :: rest) =
      joinSep "," csvHeader ++ "\n" ++ (joinSep "," (csvRow fd ft r) ++ t) := by
    simp only [csvText, csvTable, List.map_cons]
    rw [joinSep_cons₂, ht]
  have hdata : (csvText fd ft (r :: rest)).data =
      "Headline,Sentiment,Date,Time,Link,Explanation".data ++ '\n' ::
        ('"' :: (escChars r.headline.data ++ '"' :: ',' ::
          ((joinSep "," [jsOr r.sentiment "", fd r.timestamp, ft r.timestamp,
            jsOr r.link "", quoteCsv r.explanation]).data ++ t.data))) := by
    rw [htext, rowLine_decomp]
    have hh : joinSep "," csvHeader = "Headline,Sentiment,Date,Time,Link,Explanation" := rfl
    rw [hh, quoteCsv]
    simp only [String.data_append]
    simp [List.append_assoc]
  rw [csvParse, hdata, csvParseAux_header]
  have hstep : csvParseAux ('"' :: (escChars r.headline.data ++ '"' :: ',' ::
      ((joinSep "," [jsOr r.sentiment "", fd r.timestamp, ft r.timestamp,
        jsOr r.link "", quoteCsv r.explanation]).data ++ t.data))) .normal [] [] =
      csvParseAux (escChars r.headline.data ++ '"' :: ',' ::
        ((joinSep "," [jsOr r.sentiment "", fd r.timestamp, ft r.timestamp,
          jsOr r.link "", quoteCsv r.explanation]).data ++ t.data)) .quoted [] [] := rfl
  rw [hstep, csvParseAux_esc]
  have hmk2 : String.mk (([] : List Char) ++ r.headline.data) = r.headline := by
    rw [List.nil_append]
  rw [hmk2]
  obtain ⟨tail, more, hrest⟩ := csvParseAux_first_field
    ((joinSep "," [jsOr r.sentiment "", fd r.timestamp, ft r.timestamp,
      jsOr r.link "", quoteCsv r.explanation]).data ++ t.data) .normal [] r.headline []
  rw [List.nil_append, hrest]
  exact ⟨tail, more, rfl⟩

/-- C9 (witness): the round-trip at a concrete record with the headline
`He said "sell now"` and fixed locale renderings. -/
theorem export_headline_roundtrip_witness :
    (∃ tail more, csvParse (csvText (fun _ => "1/1/2025") (fun _ => "10:00:00 AM")
        [mkRecord "He said \"sell now\"" (some "neutral") (some 0) none]) =
      csvHeader :: ("He said \"sell now\"" :: tail) :: more) ∧
    csvRow (fun _ => "1/1/2025") (fun _ => "10:00:00 AM")
        (mkRecord "He said \"sell now\"" (some "neutral") (some 0) none) =
      [quoteCsv (mkRecord "He said \"sell now\"" (some "neutral") (some 0) none).headline,
       jsOr (mkRecord "He said \"sell now\"" (some "neutral") (some 0) none).sentiment "",
       "1/1/2025", "10:00:00 AM",
       jsOr (mkRecord "He said \"sell now\"" (some "neutral") (some 0) none).link "",
       quoteCsv (mkRecord "He said \"sell now\"" (some "neutral") (some 0) none).explanation] :=
  export_headline_roundtrip (fun _ => "1/1/2025") (fun _ => "10:00:00 AM")
    (mkRecord "He said \"sell now\"" (some "neutral") (some 0) none) [] (by decide)

/-! ## C10 — export structure -/

/-- C10: for a non-empty canonical sequence the export produces the CSV of
exactly one header row followed by one row per record in canonical order;
an absent sentiment renders as an empty Sentiment field and an absent link
as an empty Link field. -/
theorem export_structure (fd ft : Option Int → String) (results : List AnalysisResult)
    (h : results ≠ []) :
    exportResults fd ft results = some (csvText fd ft results) ∧
    csvTable fd ft results = csvHeader :: results.map (csvRow fd ft) ∧
    (csvTable fd ft results).length = results.length + 1 ∧
    (∀ i : Nat, (csvTable fd ft results)[i + 1]? = (results[i]?).map (csvRow fd ft)) ∧
    (∀ r : AnalysisResult, r.sentiment = none → (csvRow fd ft r)[1]? = some "") ∧
    (∀ r : AnalysisResult, r.link = none → (csvRow fd ft r)[4]? = some "") := by
  refine ⟨?_, rfl, by simp [csvTable], ?_, ?_, ?_⟩
  · rw [exportResults, if_neg]
    simp [List.isEmpty_iff, h]
  · intro i
    simp [csvTable]
  · intro r hr
    simp [csvRow, jsOr, hr]
  · intro r hr
    simp [csvRow, jsOr, hr]

/-- C10 (witness): the export structure at a concrete one-record canonical
sequence whose record has no sentiment and no link. -/
theorem export_structure_witness :
    exportResults (fun _ => "d") (fun _ => "t") [mkRecord "h" none (some 0) none] =
      some (csvText (fun _ => "d") (fun _ => "t") [mkRecord "h" none (some 0) none]) ∧
    csvTable (fun _ => "d") (fun _ => "t") [mkRecord "h" none (some 0) none] =
      csvHeader :: [mkRecord "h" none (some 0) none].map
        (csvRow (fun _ => "d") (fun _ => "t")) ∧
    (csvTable (fun _ => "d") (fun _ => "t") [mkRecord "h" none (some 0) none]).length =
      [mkRecord "h" none (some 0) none].length + 1 ∧
    (∀ i : Nat, (csvTable (fun _ => "d") (fun _ => "t")
        [mkRecord "h" none (some 0) none])[i + 1]? =
      ([mkRecord "h" none (some 0) none][i]?).map (csvRow (fun _ => "d") (fun _ => "t"))) ∧
    (∀ r : AnalysisResult, r.sentiment = none →
      (csvRow (fun _ => "d") (fun _ => "t") r)[1]? = some "") ∧
    (∀ r : AnalysisResult, r.link = none →
      (csvRow (fun _ => "d") (fun _ => "t") r)[4]? = some "") :=
  export_structure (fun _ => "d") (fun _ => "t") [mkRecord "h" none (some 0) none]
    (by decide)
